import Mathlib

/-!
Shallow embedding of the Kika CLI (src/main.py): the configuration store, the
settings-resolution chain, the connection layer, and the E8 price formatter.
Python file-system effects are made explicit as a `FileState` value, the process
environment as an `Env` record, and the external web3 liveness probe as an
oracle function.  The JSON codec (json.load / json.dump) is an external
collaborator of the repository; its observable outcomes are embedded as the
constructors of `FileState`.
-/

namespace Kika

/-- JSON documents as produced by json.load.  Numbers are restricted to
integers: no claim involves a fractional config value, and the config keys in
the source (rpc_url, contract_address, private_key) are strings. -/
inductive Json where
  | null
  | bool (b : Bool)
  | num (n : Int)
  | str (s : String)
  | arr (elems : List Json)
  | obj (fields : List (String × Json))

/-- True exactly for JSON objects (Python dict after json.load). -/
def Json.isObj : Json → Bool
  | .obj _ => true
  | _ => false

/-- True for JSON scalars (null, booleans, numbers, strings). -/
def Json.isScalar : Json → Bool
  | .arr _ => false
  | .obj _ => false
  | _ => true

/-- Python truthiness of a loaded JSON value: None, False, 0, the empty string,
the empty list and the empty dict are falsy, everything else truthy. -/
def truthy : Json → Bool
  | .null => false
  | .bool b => b
  | .num n => n != 0
  | .str s => s != ""
  | .arr xs => !xs.isEmpty
  | .obj kvs => !kvs.isEmpty

/-- Truthiness of an optional value: Python None (`none`) is falsy. -/
def optTruthy : Option Json → Bool
  | none => false
  | some v => truthy v

/-- The errors the embedded fragment can raise.  `configError` carries the
message of the ValueError from get_contract; `connError` carries the resolved
endpoint named by the ConnectionError message `"Cannot connect to RPC: {rpc}"`;
`validationError` is the pre-network rejection of malformed facade inputs;
`unicodeDecodeError` is the Python UnicodeDecodeError raised by the read
inside json.load on non-UTF-8 file bytes, which the except clause of
load_config does not catch, so it propagates through every caller. -/
inductive KikaError where
  | configError (msg : String)
  | connError (endpoint : Json)
  | validationError (msg : String)
  | unicodeDecodeError

/-- The observable state of the config file at `config_path()`.  `missing`: the
file does not exist; `readError`: opening or reading it fails at the OS level
(OSError); `malformed`: the file exists and its bytes decode as text but
json.load rejects that text (JSONDecodeError — this includes the empty file);
`undecodable`: the file exists and is readable but its bytes are not valid
UTF-8, so the read inside json.load raises UnicodeDecodeError; `content j`:
the file exists and its text parses as the JSON document `j`. -/
inductive FileState where
  | missing
  | readError
  | malformed
  | undecodable
  | content (j : Json)

/-- load_config (src/main.py:135-143): return `{}` when the file is missing,
and when json.load raises JSONDecodeError or the read raises OSError; a file
whose bytes are not valid UTF-8 makes the read inside json.load raise
UnicodeDecodeError, which `except (json.JSONDecodeError, OSError)` does not
catch, so it propagates to the caller; otherwise return whatever document
json.load produced. -/
def load_config : FileState → Except KikaError Json
  | .missing => .ok (.obj [])
  | .readError => .ok (.obj [])
  | .malformed => .ok (.obj [])
  | .undecodable => .error .unicodeDecodeError
  | .content j => .ok j

/-- save_config (src/main.py:146-154): write the document and return True, or
return False when mkdir/open/write raises OSError.  The flag `fsOk` embeds
whether the OS accepts the write; a failed write is modelled as leaving the
file in its previous state `prev`. -/
def save_config (data : Json) (fsOk : Bool) (prev : FileState) : Bool × FileState :=
  if fsOk then (true, .content data) else (false, prev)

/-- get_config (src/main.py:157-158): `load_config().get(key, None)`.  An
exception raised by load_config propagates.  Only a dict has `.get`; a config
file holding a non-object JSON document would make Python raise AttributeError
here — no claim reaches that state, and the model returns `none` for it. -/
def get_config (s : FileState) (key : String) : Except KikaError (Option Json) :=
  match load_config s with
  | .error e => .error e
  | .ok (.obj kvs) => .ok (kvs.lookup key)
  | .ok _ => .ok none

/-- Python `c[key] = value` on the loaded dict: replace the value at `key` if
the key is present (keeping its position), otherwise append the new binding. -/
def dictSet (kvs : List (String × Json)) (key : String) (v : Json) :
    List (String × Json) :=
  if (kvs.lookup key).isSome then
    kvs.map fun p => if p.1 == key then (key, v) else p
  else
    kvs ++ [(key, v)]

/-- set_config (src/main.py:161-164): load, assign the key, save.  When the
load raises (UnicodeDecodeError) or the loaded document is not a dict (Python
raises TypeError on the item assignment), the exception occurs before any
save, so the file state is unchanged in those cases. -/
def set_config (key : String) (v : Json) (s : FileState) (fsOk : Bool) : FileState :=
  match load_config s with
  | .ok (.obj kvs) => (save_config (.obj (dictSet kvs key v)) fsOk s).2
  | _ => s

/-- The process environment variables the settings chain reads
(src/main.py:171,175,179). -/
structure Env where
  kikaRpc : Option String
  kikaContract : Option String
  kikaPrivateKey : Option String

/-- DEFAULT_RPC (src/main.py:23). -/
def DEFAULT_RPC : String := "https://eth.llamarpc.com"

/-- Python `a or rest` where `a` is an optional loaded value: `a` when it is
present and truthy, otherwise `rest`. -/
def jOr (a : Option Json) (rest : Json) : Json :=
  match a with
  | some v => if truthy v then v else rest
  | none => rest

/-- Python `a or b` over optional values: `a` when present and truthy,
otherwise `b` (even when `b` is itself falsy or absent). -/
def pyOr (a b : Option Json) : Option Json :=
  if optTruthy a then a else b

/-- get_rpc (src/main.py:170-171):
`get_config("rpc_url") or os.environ.get("KIKA_RPC") or DEFAULT_RPC`; an
exception raised by get_config propagates. -/
def get_rpc (s : FileState) (env : Env) : Except KikaError Json :=
  match get_config s "rpc_url" with
  | .error e => .error e
  | .ok a => .ok (jOr a (jOr (Option.map Json.str env.kikaRpc) (Json.str DEFAULT_RPC)))

/-- get_contract_address (src/main.py:174-175):
`get_config("contract_address") or os.environ.get("KIKA_CONTRACT")`; an
exception raised by get_config propagates. -/
def get_contract_address (s : FileState) (env : Env) : Except KikaError (Option Json) :=
  match get_config s "contract_address" with
  | .error e => .error e
  | .ok a => .ok (pyOr a (Option.map Json.str env.kikaContract))

/-- get_private_key (src/main.py:178-179):
`get_config("private_key") or os.environ.get("KIKA_PRIVATE_KEY")`; an
exception raised by get_config propagates. -/
def get_private_key (s : FileState) (env : Env) : Except KikaError (Option Json) :=
  match get_config s "private_key" with
  | .error e => .error e
  | .ok a => .ok (pyOr a (Option.map Json.str env.kikaPrivateKey))

/-- The ValueError message in get_contract (src/main.py:198). -/
def CONTRACT_NOT_SET_MSG : String :=
  "Contract address not set. Use --contract or set contract_address in config."

/-- connect_web3 (src/main.py:182-192): resolve the endpoint, build the
provider, probe liveness once, and either return the connected handle or raise
ConnectionError naming the endpoint.  The web3 library is assumed importable
(the ImportError branch exits the process and is outside the model).  `live`
is the external liveness oracle: `live rpc n` is the answer of the n-th
`is_connected()` call against `rpc`.  The second component counts how many
liveness calls were made, so that the absence of internal retry is a stated
fact rather than an artifact.  An exception raised while resolving the
endpoint propagates before any liveness call. -/
def connect_web3 (s : FileState) (env : Env) (live : Json → Nat → Bool) :
    Except KikaError Json × Nat :=
  match get_rpc s env with
  | .error e => (.error e, 0)
  | .ok rpc =>
      if live rpc 0 then (Except.ok rpc, 1)
      else (Except.error (KikaError.connError rpc), 1)

/-- get_contract (src/main.py:195-199): resolve the address; raise ValueError
when it is absent or falsy, otherwise bind the contract.  An exception raised
while resolving the address propagates.  The returned handle is modelled by
the address value it is bound to (checksumming and ABI attachment are the
external chain library). -/
def get_contract (s : FileState) (env : Env) : Except KikaError Json :=
  match get_contract_address s env with
  | .error e => .error e
  | .ok (some v) =>
      if truthy v then Except.ok v
      else Except.error (KikaError.configError CONTRACT_NOT_SET_MSG)
  | .ok none => Except.error (KikaError.configError CONTRACT_NOT_SET_MSG)

/-- E8 (src/main.py:26): the fixed-point scale 10^8. -/
def E8 : Nat := 10 ^ 8

/-- Floor of the base-2 logarithm, with an explicit fuel bound so that the
kernel can evaluate it; 128 units of fuel cover every number these claims
evaluate (all far below 2^128). -/
def natLog2Go : Nat → Nat → Nat
  | 0, _ => 0
  | fuel + 1, n => if 2 ≤ n then natLog2Go fuel (n / 2) + 1 else 0

/-- `natLog2 n` is the floor of log2 of n, for 1 ≤ n < 2^128. -/
def natLog2 (n : Nat) : Nat := natLog2Go 128 n

/-- Round a / b (with b ≥ 1) to the nearest natural number, ties to even —
the rounding of IEEE-754 binary64 arithmetic and of Python float formatting. -/
def rheDiv (a b : Nat) : Nat :=
  let q := a / b
  let r := a % b
  if 2 * r < b then q
  else if b < 2 * r then q + 1
  else if q % 2 == 0 then q else q + 1

/-- Floor of log2 of the positive rational n / d (n, d ≥ 1).  With
α = natLog2 n and β = natLog2 d the answer is α - β or α - β - 1, decided by
one exact integer comparison of n / d against 2^(α - β). -/
def floorLog2Rat (n d : Nat) : Int :=
  let c : Int := (natLog2 n : Int) - (natLog2 d : Int)
  if d * 2 ^ c.toNat ≤ n * 2 ^ (-c).toNat then c else c - 1

/-- The IEEE-754 binary64 value of the exact quotient n / d (n, d ≥ 1),
correctly rounded to nearest with ties to even, returned as a mantissa and
binade pair `(m, e)` whose value is m · 2^(e - 52).  This is the result
Python produces for `n / d` on ints.  Normal range only (no subnormals, no
overflow), which covers every quotient these claims evaluate. -/
def divToDouble (n d : Nat) : Nat × Int :=
  let e := floorLog2Rat n d
  let s := 52 - e
  (rheDiv (n * 2 ^ s.toNat) (d * 2 ^ (-s).toNat), e)

/-- The decimal digit character for n % 10. -/
def digitChar (n : Nat) : Char := Char.ofNat (48 + n % 10)

/-- Decimal digits of a natural number, most significant first, accumulated
onto `acc`; fuel-bounded for kernel evaluation (40 digits suffice here). -/
def natDigitsGo : Nat → Nat → List Char → List Char
  | 0, _, acc => acc
  | fuel + 1, n, acc =>
    if n < 10 then digitChar n :: acc
    else natDigitsGo fuel (n / 10) (digitChar (n % 10) :: acc)

/-- Decimal digit characters of n, most significant first. -/
def natDigits (n : Nat) : List Char := natDigitsGo 40 n []

/-- Exactly `w` decimal digit characters of n mod 10^w, most significant
first (zero padded on the left). -/
def padDigits : Nat → Nat → List Char
  | 0, _ => []
  | w + 1, n => padDigits w (n / 10) ++ [digitChar n]

/-- Python `f"{x:.8f}"` applied to the nonnegative binary64 value m · 2^(e - 52):
the exact binary value is correctly rounded to 8 decimal places, ties to even,
and printed with a zero-padded 8-digit fractional part. -/
def formatFixed8 (m : Nat) (e : Int) : String :=
  let t := e - 52
  let scaled := if 0 ≤ t then m * E8 * 2 ^ t.toNat else rheDiv (m * E8) (2 ^ (-t).toNat)
  String.mk (natDigits (scaled / E8) ++ '.' :: padDigits 8 scaled)

/-- fmt_price_e8 (src/main.py:210-213): zero renders as the literal "0";
every other input is divided by E8 in binary64 floating point
(`price_e8 / E8` on Python ints is the correctly rounded binary64 quotient)
and formatted with `:.8f`. -/
def fmt_price_e8 (price_e8 : Nat) : String :=
  if price_e8 == 0 then "0"
  else
    let d := divToDouble price_e8 E8
    formatFixed8 d.1 d.2

/-- Modelled from the spec: the exact 8-decimal fixed-point rendering of an E8
integer by pure integer/string arithmetic ("use exact integer/string
arithmetic for the scaling division"), zero rendering as the literal "0".
This is the renderer the spec requires; `fmt_price_e8` above is the renderer
the source implements. -/
def fmt_price_e8_exact (price_e8 : Nat) : String :=
  if price_e8 == 0 then "0"
  else String.mk (natDigits (price_e8 / E8) ++ '.' :: padDigits 8 price_e8)

/-- A call that reached the chain client. -/
inductive ChainCall where
  | batchReport (symbolHashes : List Nat) (pricesE8 : List Nat)

/-- Modelled from the spec: the batch-report facade operation.  The code
implementing the reporting commands is not under src/ (src/main.py ends inside
the formatting section, before the command implementations), so this follows
the spec wording: "inputs for the batch variant must have matching sequence
lengths (facade-level precondition — violating it is a caller programming
error, reported before any network call is attempted, not left to the contract
to reject)".  The chain client is embedded as the list of calls that reach it:
a validation failure carries no call, a success carries the one batch
transaction. -/
def batchReportPrices (symbolHashes pricesE8 : List Nat) :
    Except KikaError (List ChainCall) :=
  if symbolHashes.length != pricesE8.length then
    Except.error (KikaError.validationError "symbolHashes and pricesE8 length mismatch")
  else
    Except.ok [ChainCall.batchReport symbolHashes pricesE8]

/-! ## Lemmas about dictSet (Python dict item assignment) -/

theorem lookup_map_replace (k : String) (v : Json) :
    ∀ kvs : List (String × Json), (kvs.lookup k).isSome = true →
      List.lookup k (kvs.map fun p => if p.1 == k then (k, v) else p) = some v
  | [], h => by simp at h
  | (a, b) :: t, h => by
    by_cases hak : a = k
    · subst hak
      simp [List.lookup_cons]
    · have hak2 : (a == k) = false := beq_eq_false_iff_ne.mpr hak
      have hka : (k == a) = false := beq_eq_false_iff_ne.mpr (Ne.symm hak)
      simp only [List.lookup_cons, hka] at h
      simp only [List.map_cons, hak2, Bool.false_eq_true, if_false,
        List.lookup_cons, hka]
      exact lookup_map_replace k v t h

theorem lookup_map_replace_ne (k k2 : String) (v : Json) (hne : k2 ≠ k)
    (kvs : List (String × Json)) :
    List.lookup k2 (kvs.map fun p => if p.1 == k then (k, v) else p) = kvs.lookup k2 := by
  induction kvs with
  | nil => simp
  | cons p t ih =>
    obtain ⟨a, b⟩ := p
    by_cases hak : a = k
    · subst hak
      have h2a : (k2 == a) = false := beq_eq_false_iff_ne.mpr hne
      have hhead : (fun p : String × Json => if p.1 == a then (a, v) else p) (a, b) = (a, v) := by
        simp
      simp only [List.map_cons, hhead, List.lookup_cons, h2a]
      exact ih
    · have hhead : (fun p : String × Json => if p.1 == k then (k, v) else p) (a, b) = (a, b) := by
        simp [hak]
      cases h2a : (k2 == a) with
      | true => simp only [List.map_cons, hhead, List.lookup_cons, h2a]
      | false =>
        simp only [List.map_cons, hhead, List.lookup_cons, h2a]
        exact ih

theorem lookup_append_missing (k : String) (v : Json) :
    ∀ kvs : List (String × Json), kvs.lookup k = none →
      List.lookup k (kvs ++ [(k, v)]) = some v
  | [], _ => by simp [List.lookup_cons]
  | (a, b) :: t, h => by
    cases hka : (k == a) with
    | true => simp [List.lookup_cons, hka] at h
    | false =>
      simp only [List.cons_append, List.lookup_cons, hka] at h ⊢
      exact lookup_append_missing k v t h

theorem lookup_append_ne (k k2 : String) (v : Json) (hne : k2 ≠ k) :
    ∀ kvs : List (String × Json), List.lookup k2 (kvs ++ [(k, v)]) = kvs.lookup k2
  | [] => by
    have h2k : (k2 == k) = false := beq_eq_false_iff_ne.mpr hne
    simp [List.lookup_cons, h2k]
  | (a, b) :: t => by
    cases h2a : (k2 == a) with
    | true => simp [List.cons_append, List.lookup_cons, h2a]
    | false => simp [List.cons_append, List.lookup_cons, h2a, lookup_append_ne k k2 v hne t]

theorem dictSet_lookup_self (kvs : List (String × Json)) (k : String) (v : Json) :
    (dictSet kvs k v).lookup k = some v := by
  unfold dictSet
  by_cases h : (kvs.lookup k).isSome = true
  · rw [if_pos h]
    exact lookup_map_replace k v kvs h
  · rw [if_neg h]
    refine lookup_append_missing k v kvs ?_
    cases hl : kvs.lookup k with
    | none => rfl
    | some b => rw [hl] at h; simp at h

theorem dictSet_lookup_ne (kvs : List (String × Json)) (k k2 : String) (v : Json)
    (hne : k2 ≠ k) : (dictSet kvs k v).lookup k2 = kvs.lookup k2 := by
  unfold dictSet
  by_cases h : (kvs.lookup k).isSome = true
  · rw [if_pos h]
    exact lookup_map_replace_ne k k2 v hne kvs
  · rw [if_neg h]
    exact lookup_append_ne k k2 v hne kvs

/-! ## Claim theorems -/

/-- Claim C1: refuted — fmt_price_e8 divides in binary64 floating point, not
with exact integer/string arithmetic.  At the E8 input 10^18 + 1 the code
renders "10000000000.00000000" while the exact fixed-point rendering is
"10000000000.00000001": the final digit is lost to binary floating-point
rounding, exactly the artifact the spec rules out. -/
theorem fmt_price_e8_float_artifact :
    fmt_price_e8 1000000000000000001 = "10000000000.00000000" ∧
    fmt_price_e8_exact 1000000000000000001 = "10000000000.00000001" ∧
    fmt_price_e8 1000000000000000001 ≠ fmt_price_e8_exact 1000000000000000001 :=
  ⟨by decide, by decide, by decide⟩

/-- Claim C4: the spec example triples hold on the source formatter: zero
renders as the literal "0", 123456789 as "1.23456789", and 100000000 as
"1.00000000". -/
theorem fmt_price_e8_examples :
    fmt_price_e8 0 = "0" ∧ fmt_price_e8 123456789 = "1.23456789" ∧
    fmt_price_e8 100000000 = "1.00000000" :=
  ⟨by decide, by decide, by decide⟩

/-- Claim C2 counterexample: a readable file whose text is the JSON array [1]
parses successfully and load_config returns that array unchanged — not a
mapping — so "in every case it returns a valid (possibly empty) mapping" fails
on the code; and a readable file whose bytes are not valid UTF-8 makes
load_config raise (the UnicodeDecodeError from the read inside json.load is
caught by neither json.JSONDecodeError nor OSError), so "never raises" fails
as well. -/
theorem load_config_nonobject_counterexample :
    load_config (FileState.content (Json.arr [Json.num 1])) =
      Except.ok (Json.arr [Json.num 1]) ∧
    (Json.arr [Json.num 1]).isObj = false ∧
    load_config FileState.undecodable = Except.error KikaError.unicodeDecodeError :=
  ⟨rfl, rfl, rfl⟩

/-- Claim C2 (amended): on a missing file, an OS-level read failure, or text
that fails JSON parsing (JSONDecodeError, including the empty file)
load_config returns the empty mapping; a file whose bytes are not valid UTF-8
raises UnicodeDecodeError, which the except clause does not catch; when
parsing succeeds the parsed document is returned as-is, which is a mapping
exactly when the file held a JSON object. -/
theorem load_config_amended :
    load_config FileState.missing = Except.ok (Json.obj []) ∧
    load_config FileState.readError = Except.ok (Json.obj []) ∧
    load_config FileState.malformed = Except.ok (Json.obj []) ∧
    load_config FileState.undecodable = Except.error KikaError.unicodeDecodeError ∧
    ∀ j : Json, load_config (FileState.content j) = Except.ok j :=
  ⟨rfl, rfl, rfl, rfl, fun _ => rfl⟩

/-- Claim C3: RPC endpoint precedence — a set (nonempty) config rpc_url beats
the environment variable; with no config value a set environment variable
wins; with neither, the hardcoded DEFAULT_RPC is returned. -/
theorem get_rpc_precedence (s : FileState) (env : Env) (u v : String) :
    (get_config s "rpc_url" = Except.ok (some (Json.str u)) → u ≠ "" →
      env.kikaRpc = some v → get_rpc s env = Except.ok (Json.str u)) ∧
    (get_config s "rpc_url" = Except.ok none → env.kikaRpc = some v → v ≠ "" →
      get_rpc s env = Except.ok (Json.str v)) ∧
    (get_config s "rpc_url" = Except.ok none → env.kikaRpc = none →
      get_rpc s env = Except.ok (Json.str DEFAULT_RPC)) := by
  refine ⟨?_, ?_, ?_⟩
  · intro hc hu _
    simp [get_rpc, hc, jOr, truthy, hu]
  · intro hc he hv
    simp [get_rpc, hc, he, jOr, truthy, hv]
  · intro hc he
    simp [get_rpc, hc, he, jOr]

/-- Claim C3 witness: the spec example — config rpc_url "https://a" and env
KIKA_RPC "https://b" resolve to "https://a". -/
theorem get_rpc_precedence_witness :
    get_rpc (FileState.content (Json.obj [("rpc_url", Json.str "https://a")]))
      ⟨some "https://b", none, none⟩ = Except.ok (Json.str "https://a") :=
  (get_rpc_precedence _ _ "https://a" "https://b").1 rfl (by decide) rfl

/-- Claim C5: config round-trip — for a file holding a JSON object of scalar
values, load_config then save_config then load_config reproduces the mapping
(whether or not the save succeeds at the OS level: a failed save leaves the
file untouched). -/
theorem config_roundtrip (kvs : List (String × Json)) (fsOk : Bool)
    (_hscalar : ∀ p ∈ kvs, p.2.isScalar = true) :
    ∀ m : Json, load_config (FileState.content (Json.obj kvs)) = Except.ok m →
      load_config (save_config m fsOk (FileState.content (Json.obj kvs))).2 =
        load_config (FileState.content (Json.obj kvs)) := by
  intro m hm
  have hm2 : m = Json.obj kvs := by
    simp [load_config] at hm
    exact hm.symm
  subst hm2
  cases fsOk <;> simp [load_config, save_config]

/-- Claim C5 witness: the round-trip at a concrete two-key scalar config. -/
theorem config_roundtrip_witness :
    load_config (save_config
      (Json.obj [("rpc_url", Json.str "https://a"), ("private_key", Json.null)]) true
      (FileState.content (Json.obj
      [("rpc_url", Json.str "https://a"), ("private_key", Json.null)]))).2 =
    load_config (FileState.content (Json.obj
      [("rpc_url", Json.str "https://a"), ("private_key", Json.null)])) :=
  config_roundtrip _ true (by decide) _ rfl

/-- Claim C6: get_contract yields the configuration ValueError exactly when no
truthy contract address resolves from the config file or KIKA_CONTRACT, and a
bound contract handle exactly when one does; the configuration error is a
constructor distinct from the connection error. -/
theorem get_contract_config_error (s : FileState) (env : Env) (a : Option Json)
    (ha : get_contract_address s env = Except.ok a) :
    (get_contract s env = Except.error (KikaError.configError CONTRACT_NOT_SET_MSG) ↔
      optTruthy a = false) ∧
    ((∃ c, get_contract s env = Except.ok c) ↔ optTruthy a = true) := by
  cases a with
  | none => simp [get_contract, ha, optTruthy]
  | some v =>
    cases hv : truthy v with
    | false => simp [get_contract, ha, optTruthy, hv]
    | true => simp [get_contract, ha, optTruthy, hv]

/-- Claim C6 witness: with empty config and environment, get_contract fails
with the configuration error. -/
theorem get_contract_config_error_witness :
    get_contract FileState.missing ⟨none, none, none⟩ =
      Except.error (KikaError.configError CONTRACT_NOT_SET_MSG) :=
  ((get_contract_config_error FileState.missing ⟨none, none, none⟩ none rfl).1).mpr rfl

/-- Claim C7: connect_web3 makes exactly one liveness check — no internal
retry — and on a dead endpoint raises the connection error carrying the
resolved endpoint, while on a live endpoint it returns the connected handle. -/
theorem connect_web3_fail_fast (s : FileState) (env : Env) (live : Json → Nat → Bool)
    (rpc : Json) (hrpc : get_rpc s env = Except.ok rpc) :
    (connect_web3 s env live).2 = 1 ∧
    (live rpc 0 = false →
      (connect_web3 s env live).1 = Except.error (KikaError.connError rpc)) ∧
    (live rpc 0 = true → (connect_web3 s env live).1 = Except.ok rpc) := by
  cases h : live rpc 0 <;> simp [connect_web3, hrpc, h]

/-- Claim C7 witness: empty config and environment against a dead endpoint —
one liveness call, then the connection error naming DEFAULT_RPC. -/
theorem connect_web3_fail_fast_witness :
    (connect_web3 FileState.missing ⟨none, none, none⟩ fun _ _ => false).2 = 1 ∧
    (connect_web3 FileState.missing ⟨none, none, none⟩ fun _ _ => false).1 =
      Except.error (KikaError.connError (Json.str DEFAULT_RPC)) :=
  ⟨(connect_web3_fail_fast FileState.missing ⟨none, none, none⟩ (fun _ _ => false)
      (Json.str DEFAULT_RPC) rfl).1,
    (connect_web3_fail_fast FileState.missing ⟨none, none, none⟩ (fun _ _ => false)
      (Json.str DEFAULT_RPC) rfl).2.1 rfl⟩

/-- Claim C8: mismatched-length batch inputs are rejected with a validation
error and zero calls reach the chain client. -/
theorem batchReportPrices_length_check (symbolHashes pricesE8 : List Nat)
    (h : symbolHashes.length ≠ pricesE8.length) :
    batchReportPrices symbolHashes pricesE8 =
      Except.error (KikaError.validationError "symbolHashes and pricesE8 length mismatch") := by
  simp [batchReportPrices, h]

/-- Claim C8 witness: one hash against zero prices is rejected before any
chain call. -/
theorem batchReportPrices_length_check_witness :
    batchReportPrices [1] [] =
      Except.error (KikaError.validationError "symbolHashes and pricesE8 length mismatch") :=
  batchReportPrices_length_check [1] [] (by decide)

/-- Claim C9: a key present in the config with an empty-string (falsy) value
is treated as absent — get_rpc falls through to KIKA_RPC and then to
DEFAULT_RPC, and get_contract_address and get_private_key fall through to
their environment variables. -/
theorem falsy_config_value_falls_through (s : FileState) (env : Env) (v : String) :
    (get_config s "rpc_url" = Except.ok (some (Json.str "")) → env.kikaRpc = some v →
      v ≠ "" → get_rpc s env = Except.ok (Json.str v)) ∧
    (get_config s "rpc_url" = Except.ok (some (Json.str "")) → env.kikaRpc = none →
      get_rpc s env = Except.ok (Json.str DEFAULT_RPC)) ∧
    (get_config s "contract_address" = Except.ok (some (Json.str "")) →
      get_contract_address s env = Except.ok (Option.map Json.str env.kikaContract)) ∧
    (get_config s "private_key" = Except.ok (some (Json.str "")) →
      get_private_key s env = Except.ok (Option.map Json.str env.kikaPrivateKey)) := by
  refine ⟨?_, ?_, ?_, ?_⟩
  · intro hc he hv
    simp [get_rpc, hc, he, jOr, truthy, hv]
  · intro hc he
    simp [get_rpc, hc, he, jOr, truthy]
  · intro hc
    simp [get_contract_address, hc, pyOr, optTruthy, truthy]
  · intro hc
    simp [get_private_key, hc, pyOr, optTruthy, truthy]

/-- Claim C9 witness: config rpc_url = "" with KIKA_RPC = "https://b" resolves
to "https://b". -/
theorem falsy_config_value_falls_through_witness :
    get_rpc (FileState.content (Json.obj [("rpc_url", Json.str "")]))
      ⟨some "https://b", none, none⟩ = Except.ok (Json.str "https://b") :=
  (falsy_config_value_falls_through _ _ "https://b").1 rfl rfl (by decide)

/-- Claim C10: set_config with a successful save updates exactly the written
key — get_config then returns the new value at that key, and every other key
keeps its prior value. -/
theorem set_config_frame (s : FileState) (kvs : List (String × Json))
    (k k2 : String) (v : Json) (hload : load_config s = Except.ok (Json.obj kvs))
    (hne : k2 ≠ k) :
    get_config (set_config k v s true) k = Except.ok (some v) ∧
    get_config (set_config k v s true) k2 = Except.ok (kvs.lookup k2) := by
  have hset : set_config k v s true = FileState.content (Json.obj (dictSet kvs k v)) := by
    simp [set_config, hload, save_config]
  rw [hset]
  exact ⟨by simp [get_config, load_config, dictSet_lookup_self],
    by simp [get_config, load_config, dictSet_lookup_ne kvs k k2 v hne]⟩

/-- Claim C10 witness: overwriting contract_address keeps rpc_url intact and
get_config sees the new address. -/
theorem set_config_frame_witness :
    get_config (set_config "contract_address" (Json.str "0xabc")
      (FileState.content (Json.obj
        [("rpc_url", Json.str "https://a"), ("contract_address", Json.str "0x1")])) true)
      "contract_address" = Except.ok (some (Json.str "0xabc")) ∧
    get_config (set_config "contract_address" (Json.str "0xabc")
      (FileState.content (Json.obj
        [("rpc_url", Json.str "https://a"), ("contract_address", Json.str "0x1")])) true)
      "rpc_url" =
    Except.ok (List.lookup "rpc_url"
      [("rpc_url", Json.str "https://a"), ("contract_address", Json.str "0x1")]) :=
  set_config_frame _ _ "contract_address" "rpc_url" (Json.str "0xabc") rfl (by decide)

end Kika
